import Mathlib

/-!
# Verification of the madeinoz-voice-server Qwen TTS server

Shallow embedding of `src/py/qwen_tts_server.py` (the synthesis backend
selection and normalization logic) and proofs about it.

Modelling conventions:
* Python floats are embedded as exact rationals (`ℚ`); `int(x)` on a
  non-negative quotient of naturals is natural division, and in general is
  truncation toward zero (`ratTrunc`).
* External effects (the pyttsx3 engine, the qwen model's generation call,
  temp-file writes/reads) are parameterised by explicit environment records
  that say what the external world does; exceptions are `Except` values.
* Ghost "trace" fields record observable events (which backend engine ran,
  which voice index and rate were set, whether the neural generation method
  was invoked, whether a temp file was left behind) without affecting the
  data flow; they mirror the side effects of the Python code line by line.
-/

/-- Truncation toward zero of a rational, the meaning of Python `int(x)`
on a float value (exact-arithmetic reading). -/
def ratTrunc (q : ℚ) : ℤ :=
  if 0 ≤ q then ⌊q⌋ else ⌈q⌉

/-- `duration_ms = int(sampleCount / rate * 1000)` as computed at
`qwen_tts_server.py:252` and (via `frames / float(rate)` then
`int(duration * 1000)`) at lines 185-186.  For naturals this truncation is
natural-number division. -/
def duration_ms (sampleCount rate : ℕ) : ℕ :=
  sampleCount * 1000 / rate

/-- Numpy dtype of a waveform array, as far as the server inspects it. -/
inductive DType
  | float16
  | float32
  | float64
  | int16
  | int32
  deriving DecidableEq

/-- A dtype is a floating-point type. -/
def DType.isFloat : DType → Bool
  | .float16 => true
  | .float32 => true
  | .float64 => true
  | _ => false

/-- A raw (already 1-D) model waveform: its dtype and its samples as exact
rationals. -/
structure Waveform where
  dtype : DType
  samples : List ℚ
  deriving DecidableEq

/-- `np.clip(x, -1.0, 1.0)` on one sample. -/
def clampSample (x : ℚ) : ℚ :=
  max (-1) (min 1 x)

/-- One float sample through the int16 conversion of
`qwen_tts_server.py:249-250`: clip to `[-1, 1]`, multiply by `32767`,
truncate to integer (`astype(np.int16)`), read back as a rational sample. -/
def float_to_int16 (x : ℚ) : ℚ :=
  ((ratTrunc (clampSample x * 32767) : ℤ) : ℚ)

/-- The dtype-dependent conversion of `qwen_tts_server.py:245-250`:
only `float32` and `float16` arrays are clipped and scaled to `int16`;
every other dtype (including `float64`) passes through unchanged. -/
def normalize_audio (w : Waveform) : Waveform :=
  if w.dtype = DType.float32 ∨ w.dtype = DType.float16 then
    { dtype := DType.int16, samples := w.samples.map float_to_int16 }
  else
    w

/-- `VOICE_MAP` from `qwen_tts_server.py:60-65`. -/
def VOICE_MAP : List (String × ℕ) :=
  [("default", 0), ("marrvin", 0), ("marlin", 1), ("daniel", 2)]

/-- `VOICE_MAP.get(voice, 0)` from `qwen_tts_server.py:161`. -/
def voice_id (voice : String) : ℕ :=
  (VOICE_MAP.lookup voice).getD 0

/-- The instruction selection of `qwen_tts_server.py:219`:
`prosody if prosody and prosody != "speak normally" else
"Speak in a natural, clear voice"`.  Note that Python string truthiness
makes the empty string fall to the default as well. -/
def voice_instruct (prosody : String) : String :=
  if prosody ≠ "" ∧ prosody ≠ "speak normally" then prosody
  else "Speak in a natural, clear voice"

/-- ASCII reading of Python `str.isspace` characters used by `str.strip`. -/
def is_py_space (c : Char) : Bool :=
  c == ' ' || c == '\t' || c == '\n' || c == '\r' || c == '\x0b' || c == '\x0c'

/-- Python `str.strip()`: drop whitespace from both ends. -/
def pyStrip (s : String) : String :=
  String.mk (((s.data.dropWhile is_py_space).reverse.dropWhile is_py_space).reverse)

deriving instance DecidableEq for Except

/-- A Python exception as observed by the handlers: either a FastAPI
`HTTPException` or any other exception carrying a message. -/
inductive PyErr
  | httpException (status : ℕ) (detail : String)
  | other (msg : String)
  deriving DecidableEq

/-- `str(e)` as used when the endpoint wraps an exception. -/
def PyErr.msg : PyErr → String
  | .httpException status detail => toString status ++ ": " ++ detail
  | .other m => m

/-- Which backend actually produced the audio bytes (ghost provenance). -/
inductive Backend
  | neural
  | system
  deriving DecidableEq

/-- The bytes of a WAV container holding PCM frames at a given rate.
Both backends only ever hand WAV files back. -/
inductive WavBytes
  | wav (pcm : List ℚ) (rate : ℕ)
  deriving DecidableEq

/-- The `(audio_data, sample_rate, duration_ms)` tuple returned by a
backend, plus ghost provenance. -/
structure AudioOut where
  bytes : WavBytes
  sampleRate : ℕ
  durationMs : ℕ
  source : Backend
  deriving DecidableEq

/-- Ghost observation record of one synthesis call. -/
structure Trace where
  neuralGenAttempted : Bool := false
  systemEngineInvoked : Bool := false
  qwenTmpLeft : Bool := false
  voiceIndex : Option ℕ := none
  rateSet : Option ℤ := none
  usedInstruct : Option String := none
  deriving DecidableEq

/-- What the external pyttsx3 engine and filesystem do during one
`synthesize_with_system_tts` call: the PCM frames and sample rate of the
WAV artifact the engine produces, the number of voices the engine reports,
and whether reading the artifact back raises. -/
structure SysEnv where
  pcm : List ℚ
  rate : ℕ
  readFails : Bool
  deriving DecidableEq

/-- What the external model call and filesystem do during one
`synthesize_with_qwen` call: the generation outcome (a raw waveform and
sample rate, or an exception), and whether the temp-file write or the
read-back raises. -/
structure QwenEnv where
  gen : Except Unit (Waveform × ℕ)
  writeFails : Bool
  readFails : Bool
  deriving DecidableEq

/-- Capability shape of a loaded model: which generation methods
`hasattr` finds (`qwen_tts_server.py:216,227`). -/
structure Model where
  hasVoiceDesign : Bool
  hasGenerate : Bool
  deriving DecidableEq

/-- The process-wide globals of `qwen_tts_server.py`: `model`,
`MODEL_LOADED`, `HAS_PYTTSX3`, plus a ghost flag recording that the loader
ran and failed (used only to phrase the spec's ModelLoadState). -/
structure ServerState where
  model : Option Model
  modelLoaded : Bool
  hasPyttsx3 : Bool
  loadFailed : Bool
  deriving DecidableEq

/-- Globals at interpreter startup: `model = None`, `MODEL_LOADED = False`. -/
def initialState (hasPy : Bool) : ServerState :=
  { model := none, modelLoaded := false, hasPyttsx3 := hasPy, loadFailed := false }

/-- Outcome of the external `Qwen3TTSModel.from_pretrained` call chain. -/
inductive LoadOutcome
  | ok (m : Model)
  | err
  deriving DecidableEq

/-- `load_qwen_model` (`qwen_tts_server.py:107-140`): on success assign the
model handle and set `MODEL_LOADED = True`; any exception is caught and
`MODEL_LOADED = HAS_PYTTSX3` (the handle stays unassigned).  The function
is total: a load failure never escapes. -/
def load_qwen_model (s : ServerState) : LoadOutcome → ServerState
  | .ok m => { s with model := some m, modelLoaded := true }
  | .err => { s with modelLoaded := s.hasPyttsx3, loadFailed := true }

/-- The spec's abstract ModelLoadState, read off the embedded globals:
`Loaded` iff a model handle is present; otherwise `FailedFallback` when the
loader ran and failed, else `NotLoaded`. -/
inductive ModelLoadState
  | notLoaded
  | loaded
  | failedFallback
  deriving DecidableEq

/-- Abstraction map from the process globals to the spec's ModelLoadState. -/
def ServerState.loadState (s : ServerState) : ModelLoadState :=
  match s.model with
  | some _ => ModelLoadState.loaded
  | none => if s.loadFailed then ModelLoadState.failedFallback else ModelLoadState.notLoaded

/-- `synthesize_with_system_tts` (`qwen_tts_server.py:143-197`): raise
HTTP 500 if pyttsx3 is absent; otherwise resolve the voice through
`VOICE_MAP` (default index 0), set `rate = int(200 * speed)`, run the
engine into the temp file, read it back (computing the duration from the
artifact's own frame count and rate), and remove the temp file.  On a
read failure the except branch also removes the temp file, then re-raises. -/
def synthesize_with_system_tts (hasPy : Bool) (env : SysEnv)
    (_text voice : String) (speed : ℚ) : Except PyErr AudioOut × Trace :=
  if hasPy = false then
    (Except.error (PyErr.httpException 500
        "TTS not available. Install pyttsx3: pip install pyttsx3"), {})
  else
    let vid := voice_id voice
    let rate := ratTrunc (200 * speed)
    let t : Trace :=
      { systemEngineInvoked := true, voiceIndex := some vid, rateSet := some rate }
    if env.readFails then
      (Except.error (PyErr.other "Error reading TTS output"), t)
    else
      (Except.ok
        { bytes := WavBytes.wav env.pcm env.rate
          sampleRate := env.rate
          durationMs := duration_ms env.pcm.length env.rate
          source := Backend.system }, t)

/-- The tail of the `try` block of `synthesize_with_qwen` after generation
succeeded (`qwen_tts_server.py:238-266`): normalize the waveform, compute
the duration, write the temp file, read it back, remove it.  An exception
from the write or the read is caught by the outer handler
(`qwen_tts_server.py:268-271`), which falls back to the system backend; a
read failure happens after the temp file exists and before `os.remove`,
so in that case the temp file is left behind. -/
def qwen_after_gen (hasPy : Bool) (qenv : QwenEnv) (senv : SysEnv)
    (text voice : String) (speed : ℚ) (instr : Option String)
    (w : Waveform) (rate : ℕ) : Except PyErr AudioOut × Trace :=
  let arr := normalize_audio w
  let dur := duration_ms arr.samples.length rate
  if qenv.writeFails then
    let fb := synthesize_with_system_tts hasPy senv text voice speed
    (fb.1, { fb.2 with neuralGenAttempted := true, usedInstruct := instr })
  else if qenv.readFails then
    let fb := synthesize_with_system_tts hasPy senv text voice speed
    let t2 : Trace :=
      { fb.2 with neuralGenAttempted := true, usedInstruct := instr, qwenTmpLeft := true }
    (fb.1, t2)
  else
    (Except.ok
      { bytes := WavBytes.wav arr.samples rate
        sampleRate := rate
        durationMs := dur
        source := Backend.neural },
     { neuralGenAttempted := true, usedInstruct := instr })

/-- `synthesize_with_qwen` (`qwen_tts_server.py:200-271`): if the model
handle is `None`, delegate to the system backend immediately (no neural
generation is attempted); otherwise dispatch on the model's capability
(`generate_voice_design` with the `voice_instruct` substitution, else
`generate`, else an `AttributeError`), and on any exception in the `try`
block fall back to the system backend. -/
def synthesize_with_qwen (s : ServerState) (qenv : QwenEnv) (senv : SysEnv)
    (text voice prosody : String) (speed : ℚ) : Except PyErr AudioOut × Trace :=
  match s.model with
  | none => synthesize_with_system_tts s.hasPyttsx3 senv text voice speed
  | some m =>
    if m.hasVoiceDesign then
      let instr := voice_instruct prosody
      match qenv.gen with
      | Except.error _ =>
        let fb := synthesize_with_system_tts s.hasPyttsx3 senv text voice speed
        (fb.1, { fb.2 with neuralGenAttempted := true, usedInstruct := some instr })
      | Except.ok (w, rate) =>
        qwen_after_gen s.hasPyttsx3 qenv senv text voice speed (some instr) w rate
    else if m.hasGenerate then
      match qenv.gen with
      | Except.error _ =>
        let fb := synthesize_with_system_tts s.hasPyttsx3 senv text voice speed
        (fb.1, { fb.2 with neuralGenAttempted := true })
      | Except.ok (w, rate) =>
        qwen_after_gen s.hasPyttsx3 qenv senv text voice speed none w rate
    else
      synthesize_with_system_tts s.hasPyttsx3 senv text voice speed

/-- The request body of `POST /synthesize` (`TTSRequest`,
`qwen_tts_server.py:82-88`), with its Pydantic defaults. -/
structure TTSRequest where
  text : String
  voice : String := "default"
  prosody_instruction : String := "speak normally"
  speed : ℚ := 1
  output_format : String := "wav"
  deriving DecidableEq

/-- Base64 wrapper for the encoded audio payload. -/
inductive B64
  | b64 (data : WavBytes)
  deriving DecidableEq

/-- The 200 response body of `POST /synthesize` (`TTSResponse`,
`qwen_tts_server.py:91-96`), plus ghost provenance of the audio. -/
structure TTSResponse where
  audio_data : B64
  duration_ms : ℕ
  sample_rate : ℕ
  format : String
  source : Backend
  deriving DecidableEq

/-- The external world of one `/synthesize` request. -/
structure Env where
  qwen : QwenEnv
  sys : SysEnv
  deriving DecidableEq

/-- How the endpoint turns a backend outcome into its HTTP answer
(`qwen_tts_server.py:353-368`): a successful tuple becomes a `TTSResponse`
whose `format` is the request's `output_format` verbatim; any exception is
wrapped into HTTP 500 "Synthesis failed: ...". -/
def wrap_result (output_format : String) : Except PyErr AudioOut → Except PyErr TTSResponse
  | Except.ok a =>
    Except.ok
      { audio_data := B64.b64 a.bytes
        duration_ms := a.durationMs
        sample_rate := a.sampleRate
        format := output_format
        source := a.source }
  | Except.error e =>
    Except.error (PyErr.httpException 500 ("Synthesis failed: " ++ e.msg))

/-- The `/synthesize` endpoint (`qwen_tts_server.py:317-368`): reject empty
or all-whitespace text with HTTP 400 before touching any backend; pick the
qwen path iff `MODEL_LOADED`; wrap the backend outcome with `wrap_result`. -/
def synthesize (s : ServerState) (env : Env) (req : TTSRequest) :
    Except PyErr TTSResponse × Trace :=
  if req.text = "" ∨ pyStrip req.text = "" then
    (Except.error (PyErr.httpException 400 "Text is required"), {})
  else if s.modelLoaded then
    let r := synthesize_with_qwen s env.qwen env.sys req.text req.voice
      req.prosody_instruction req.speed
    (wrap_result req.output_format r.1, r.2)
  else
    let r := synthesize_with_system_tts s.hasPyttsx3 env.sys req.text req.voice req.speed
    (wrap_result req.output_format r.1, r.2)

/-- What the endpoint would answer if the request were served by the system
backend alone (used to state that neural failures are transparent). -/
def system_response (s : ServerState) (env : Env) (req : TTSRequest) :
    Except PyErr TTSResponse :=
  wrap_result req.output_format
    (synthesize_with_system_tts s.hasPyttsx3 env.sys req.text req.voice req.speed).1

/-- `MODEL_NAME` global (`qwen_tts_server.py:56`). -/
def MODEL_NAME : String := "Qwen3-TTS-VoiceDesign"

/-- The `/health` response body (`HealthResponse`, `qwen_tts_server.py:99-104`). -/
structure HealthResponse where
  status : String
  model_loaded : Bool
  model_name : Option String
  port : ℕ
  deriving DecidableEq

/-- The `/health` endpoint (`qwen_tts_server.py:305-314`): reads
`MODEL_LOADED`, never writes anything. -/
def health_check (s : ServerState) (port : ℕ) : HealthResponse :=
  { status := "healthy"
    model_loaded := s.modelLoaded
    model_name := if s.modelLoaded then some MODEL_NAME else none
    port := port }

/-- One incoming HTTP request to the running server. -/
inductive Req
  | health (port : ℕ)
  | synth (env : Env) (r : TTSRequest)
  | root
  deriving DecidableEq

/-- One HTTP response from the running server. -/
inductive Resp
  | health (h : HealthResponse)
  | synth (r : Except PyErr TTSResponse)
  | root (modelLoaded : Bool)
  deriving DecidableEq

/-- Dispatch of one request by the running server.  Each handler of
`qwen_tts_server.py` only reads the globals, so the state is returned
as each branch leaves it: unchanged. -/
def handle (s : ServerState) : Req → Resp × ServerState
  | Req.health p => (Resp.health (health_check s p), s)
  | Req.synth env r => (Resp.synth (synthesize s env r).1, s)
  | Req.root => (Resp.root s.modelLoaded, s)

/-- Serve a sequence of requests, threading the process state. -/
def processRequests (s : ServerState) : List Req → List Resp × ServerState
  | [] => ([], s)
  | r :: rs =>
    let x := handle s r
    let y := processRequests x.2 rs
    (x.1 :: y.1, y.2)

/-! ## Helper lemmas -/

theorem clampSample_le_one (x : ℚ) : clampSample x ≤ 1 :=
  max_le (by norm_num) (min_le_left _ _)

theorem neg_one_le_clampSample (x : ℚ) : -1 ≤ clampSample x :=
  le_max_left _ _

theorem ratTrunc_le_ceil (q : ℚ) : ratTrunc q ≤ ⌈q⌉ := by
  rw [ratTrunc]
  split
  · exact Int.floor_le_ceil q
  · exact le_refl _

theorem floor_le_ratTrunc (q : ℚ) : ⌊q⌋ ≤ ratTrunc q := by
  rw [ratTrunc]
  split
  · exact le_refl _
  · exact Int.floor_le_ceil q

theorem ratTrunc_le_of_le {q : ℚ} {n : ℤ} (h : q ≤ (n : ℚ)) : ratTrunc q ≤ n :=
  le_trans (ratTrunc_le_ceil q) (Int.ceil_le.mpr h)

theorem le_ratTrunc_of_le {q : ℚ} {n : ℤ} (h : (n : ℚ) ≤ q) : n ≤ ratTrunc q :=
  le_trans (Int.le_floor.mpr h) (floor_le_ratTrunc q)

theorem float_to_int16_bounds (x : ℚ) :
    -32767 ≤ float_to_int16 x ∧ float_to_int16 x ≤ 32767 := by
  rw [float_to_int16]
  constructor
  · have h : ((-32767 : ℤ) : ℚ) ≤ clampSample x * 32767 := by
      have := neg_one_le_clampSample x
      push_cast
      nlinarith
    exact_mod_cast le_ratTrunc_of_le h
  · have h : clampSample x * 32767 ≤ ((32767 : ℤ) : ℚ) := by
      have := clampSample_le_one x
      push_cast
      nlinarith
    exact_mod_cast ratTrunc_le_of_le h

/-! ## C3 -/

/-- C3 counterexample:  The claim "durationMs equals
`round(sampleCount / R * 1000)`" is false for the code's computation
`int(len / rate * 1000)`: at 5 samples and rate 3 the code yields 1666
while rounding yields 1667. -/
theorem C3_counterexample :
    ¬ (∀ n r : ℕ, 0 < r → (duration_ms n r : ℤ) = round (((n : ℕ) : ℚ) / ((r : ℕ) : ℚ) * 1000)) := by
  intro h
  have h5 := h 5 3 (by norm_num)
  norm_num [duration_ms, round_eq] at h5

/-- C3 (amended):  For every waveform of `n` samples at positive rate
`r`, the reported duration is the *truncation* (floor) of
`n / r * 1000`, not its rounding; an empty waveform yields 0. -/
theorem C3_theorem (n r : ℕ) (_hr : 0 < r) :
    duration_ms n r = ⌊(((n : ℕ) : ℚ) / ((r : ℕ) : ℚ)) * 1000⌋₊ ∧ duration_ms 0 r = 0 := by
  constructor
  · have h : (((n : ℕ) : ℚ) / ((r : ℕ) : ℚ)) * 1000 = ((n * 1000 : ℕ) : ℚ) / ((r : ℕ) : ℚ) := by
      push_cast
      ring
    rw [duration_ms, h, Nat.floor_div_nat, Nat.floor_natCast]
  · simp [duration_ms]

/-- C3 witness:  The amended statement evaluated at 5 samples, rate 3. -/
theorem C3_witness :
    0 < 3 ∧ (duration_ms 5 3 = ⌊(((5 : ℕ) : ℚ) / ((3 : ℕ) : ℚ)) * 1000⌋₊ ∧ duration_ms 0 3 = 0) :=
  ⟨by norm_num, C3_theorem 5 3 (by norm_num)⟩

/-! ## C4 -/

/-- C4 counterexample:  The claim "every floating-point waveform is
clamped and scaled to int16" is false: a `float64` waveform passes through
`normalize_audio` unchanged, because the code only checks for `np.float32`
and `np.float16`. -/
theorem C4_counterexample :
    ¬ (∀ w : Waveform, w.dtype.isFloat = true →
        normalize_audio w = { dtype := DType.int16, samples := w.samples.map float_to_int16 }) := by
  intro h
  have h64 := h ⟨DType.float64, [1/2]⟩ rfl
  have heq : normalize_audio ⟨DType.float64, [1/2]⟩ = ⟨DType.float64, [1/2]⟩ := rfl
  rw [heq] at h64
  exact DType.noConfusion (congrArg Waveform.dtype h64)

/-- C4 (amended):  Waveforms of sample type `float32` or `float16` are
clamped to `[-1, 1]`, scaled by 32767 and truncated to int16 (so every
normalized sample lies in `[-32767, 32767]`); every other sample type —
including `float64` — passes through unchanged. -/
theorem C4_theorem (w : Waveform) :
    (w.dtype = DType.float32 ∨ w.dtype = DType.float16 →
      normalize_audio w = { dtype := DType.int16, samples := w.samples.map float_to_int16 } ∧
      ∀ y ∈ (normalize_audio w).samples, -32767 ≤ y ∧ y ≤ 32767) ∧
    (¬(w.dtype = DType.float32 ∨ w.dtype = DType.float16) → normalize_audio w = w) := by
  constructor
  · intro h
    have he : normalize_audio w =
        { dtype := DType.int16, samples := w.samples.map float_to_int16 } := by
      rw [normalize_audio, if_pos h]
    refine ⟨he, ?_⟩
    rw [he]
    intro y hy
    simp only [List.mem_map] at hy
    obtain ⟨x, _, rfl⟩ := hy
    exact float_to_int16_bounds x
  · intro h
    rw [normalize_audio, if_neg h]

/-- C4 witness:  The amended statement evaluated on one-sample
`float32` and `float64` waveforms. -/
theorem C4_witness :
    normalize_audio ⟨DType.float32, [1/2]⟩ =
      { dtype := DType.int16, samples := [(1 : ℚ)/2].map float_to_int16 } ∧
    float_to_int16 (1/2) = 16383 ∧
    normalize_audio ⟨DType.float64, [1/2]⟩ = ⟨DType.float64, [1/2]⟩ := by
  refine ⟨((C4_theorem ⟨DType.float32, [1/2]⟩).1 (Or.inl rfl)).1, ?_,
    (C4_theorem ⟨DType.float64, [1/2]⟩).2 ?_⟩
  · norm_num [float_to_int16, clampSample, ratTrunc, min_def, max_def]
  · intro hc
    rcases hc with h | h <;> exact absurd h (by decide)

/-! ## C5 -/

/-- C5 counterexample:  The claim "the instruction is the request's
prosodyInstruction verbatim unless it equals the sentinel" is false at the
empty string: Python string truthiness makes `prosody = ""` fall to the
default instruction as well. -/
theorem C5_counterexample :
    ¬ (∀ p : String, p ≠ "speak normally" → voice_instruct p = p) := by
  intro h
  have h0 := h "" (by decide)
  have heq : voice_instruct "" = "Speak in a natural, clear voice" := rfl
  rw [heq] at h0
  exact absurd h0 (by decide)

/-- C5 (amended):  The instruction passed to voice-design generation is
`prosodyInstruction` verbatim unless it is empty or equals the sentinel
"speak normally"; in those two cases exactly "Speak in a natural, clear
voice" is substituted.  The last conjunct ties this to the voice-design
call: whenever the loaded model has that capability, the instruction the
generation call receives is `voice_instruct prosodyInstruction`. -/
theorem C5_theorem :
    (∀ p : String, p ≠ "" → p ≠ "speak normally" → voice_instruct p = p) ∧
    voice_instruct "" = "Speak in a natural, clear voice" ∧
    voice_instruct "speak normally" = "Speak in a natural, clear voice" ∧
    (∀ (s : ServerState) (qenv : QwenEnv) (senv : SysEnv)
        (text voice prosody : String) (speed : ℚ) (m : Model),
      s.model = some m → m.hasVoiceDesign = true →
      (synthesize_with_qwen s qenv senv text voice prosody speed).2.usedInstruct =
        some (voice_instruct prosody)) := by
  refine ⟨?_, rfl, rfl, ?_⟩
  · intro p h1 h2
    rw [voice_instruct, if_pos ⟨h1, h2⟩]
  · intro s qenv senv text voice prosody speed m hm hvd
    rw [synthesize_with_qwen, hm]
    simp only [hvd, if_true]
    rcases hg : qenv.gen with u | ⟨w, rate⟩
    · rfl
    · unfold qwen_after_gen
      by_cases hw : qenv.writeFails
      · simp only [hw, if_true]
      · by_cases hr : qenv.readFails
        · simp only [hw, hr, if_true, if_false, Bool.false_eq_true]
        · simp only [hw, hr, if_false, Bool.false_eq_true]

/-- C5 witness:  The amended statement evaluated at the concrete
prosody strings "cheerful tone" and "whisper". -/
theorem C5_witness :
    voice_instruct "cheerful tone" = "cheerful tone" ∧
    (synthesize_with_qwen ⟨some ⟨true, true⟩, true, true, false⟩
        ⟨Except.error (), false, false⟩ ⟨[0], 22050, false⟩
        "Hi" "default" "whisper" 1).2.usedInstruct = some (voice_instruct "whisper") :=
  ⟨C5_theorem.1 "cheerful tone" (by decide) (by decide),
   C5_theorem.2.2.2 ⟨some ⟨true, true⟩, true, true, false⟩ ⟨Except.error (), false, false⟩
     ⟨[0], 22050, false⟩ "Hi" "default" "whisper" 1 ⟨true, true⟩ rfl rfl⟩

/-! ## System-backend helper lemmas -/

theorem sys_neuralGen_false (hasPy : Bool) (env : SysEnv) (text voice : String) (speed : ℚ) :
    (synthesize_with_system_tts hasPy env text voice speed).2.neuralGenAttempted = false := by
  unfold synthesize_with_system_tts
  by_cases h : hasPy = false
  · simp [h]
  · by_cases h2 : env.readFails = true <;> simp [h, h2]

theorem sys_ok_source (hasPy : Bool) (env : SysEnv) (text voice : String) (speed : ℚ)
    (a : AudioOut) (h : (synthesize_with_system_tts hasPy env text voice speed).1 = Except.ok a) :
    a.source = Backend.system := by
  unfold synthesize_with_system_tts at h
  by_cases h1 : hasPy = false
  · simp [h1] at h
  · by_cases h2 : env.readFails = true
    · simp [h1, h2] at h
    · simp [h1, h2] at h
      rw [← h]

theorem sys_ok_of_ready (env : SysEnv) (text voice : String) (speed : ℚ)
    (hr : env.readFails = false) :
    (synthesize_with_system_tts true env text voice speed).1 =
      Except.ok { bytes := WavBytes.wav env.pcm env.rate, sampleRate := env.rate,
                  durationMs := duration_ms env.pcm.length env.rate,
                  source := Backend.system } := by
  unfold synthesize_with_system_tts
  simp [hr]

/-! ## C7 -/

/-- C7:  For every request whose text is empty or all-whitespace, the
endpoint answers HTTP 400 with detail "Text is required", and neither the
neural generation method nor the system engine is ever invoked. -/
theorem C7_theorem (s : ServerState) (env : Env) (req : TTSRequest)
    (h : req.text = "" ∨ pyStrip req.text = "") :
    (synthesize s env req).1 = Except.error (PyErr.httpException 400 "Text is required") ∧
    (synthesize s env req).2.neuralGenAttempted = false ∧
    (synthesize s env req).2.systemEngineInvoked = false := by
  rw [synthesize, if_pos h]
  exact ⟨rfl, rfl, rfl⟩

/-- C7 witness:  C7 evaluated at a request whose text is a single
space. -/
theorem C7_witness :
    ((" " : String) = "" ∨ pyStrip " " = "") ∧
    (synthesize (initialState true) ⟨⟨Except.error (), false, false⟩, ⟨[], 8000, false⟩⟩
        { text := " " }).1 = Except.error (PyErr.httpException 400 "Text is required") ∧
    (synthesize (initialState true) ⟨⟨Except.error (), false, false⟩, ⟨[], 8000, false⟩⟩
        { text := " " }).2.neuralGenAttempted = false ∧
    (synthesize (initialState true) ⟨⟨Except.error (), false, false⟩, ⟨[], 8000, false⟩⟩
        { text := " " }).2.systemEngineInvoked = false := by
  have h : (({ text := " " } : TTSRequest).text = "" ∨
      pyStrip ({ text := " " } : TTSRequest).text = "") := Or.inr (by decide)
  exact ⟨Or.inr (by decide), (C7_theorem _ _ _ h).1, (C7_theorem _ _ _ h).2.1,
    (C7_theorem _ _ _ h).2.2⟩

/-! ## C8 -/

/-- C8:  For every voice name absent from `VOICE_MAP`, the system
backend resolves it to index 0 without raising, and sets the engine rate
to `int(200 * speed)`; with a readable artifact the call succeeds. -/
theorem C8_theorem (env : SysEnv) (text voice : String) (speed : ℚ)
    (hv : ∀ p ∈ VOICE_MAP, p.1 ≠ voice) :
    (synthesize_with_system_tts true env text voice speed).2.voiceIndex = some 0 ∧
    (synthesize_with_system_tts true env text voice speed).2.rateSet =
      some (ratTrunc (200 * speed)) ∧
    (env.readFails = false →
      ∃ a, (synthesize_with_system_tts true env text voice speed).1 = Except.ok a) := by
  have h1 : (voice == "default") = false :=
    beq_eq_false_iff_ne.mpr (Ne.symm (hv ("default", 0) (by decide)))
  have h2 : (voice == "marrvin") = false :=
    beq_eq_false_iff_ne.mpr (Ne.symm (hv ("marrvin", 0) (by decide)))
  have h3 : (voice == "marlin") = false :=
    beq_eq_false_iff_ne.mpr (Ne.symm (hv ("marlin", 1) (by decide)))
  have h4 : (voice == "daniel") = false :=
    beq_eq_false_iff_ne.mpr (Ne.symm (hv ("daniel", 2) (by decide)))
  have hvid : voice_id voice = 0 := by
    rw [voice_id, VOICE_MAP]
    simp [List.lookup, h1, h2, h3, h4]
  refine ⟨?_, ?_, fun hr => ⟨_, sys_ok_of_ready env text voice speed hr⟩⟩
  · unfold synthesize_with_system_tts
    by_cases hr : env.readFails = true <;> simp [hr, hvid]
  · unfold synthesize_with_system_tts
    by_cases hr : env.readFails = true <;> simp [hr, hvid]

/-- C8 witness:  C8 evaluated at an unregistered voice name "ghost"
and speed 1. -/
theorem C8_witness :
    (∀ p ∈ VOICE_MAP, p.1 ≠ "ghost") ∧
    (synthesize_with_system_tts true ⟨[0], 22050, false⟩ "Hello" "ghost" 1).2.voiceIndex =
      some 0 ∧
    (synthesize_with_system_tts true ⟨[0], 22050, false⟩ "Hello" "ghost" 1).2.rateSet =
      some (ratTrunc (200 * 1)) ∧
    (false = false →
      ∃ a, (synthesize_with_system_tts true ⟨[0], 22050, false⟩ "Hello" "ghost" 1).1 =
        Except.ok a) := by
  have hv : ∀ p ∈ VOICE_MAP, p.1 ≠ ("ghost" : String) := by decide
  have h := C8_theorem ⟨[0], 22050, false⟩ "Hello" "ghost" 1 hv
  exact ⟨hv, h.1, h.2.1, h.2.2⟩

/-! ## C10 -/

theorem wrap_result_ok (f : String) (r : Except PyErr AudioOut) (resp : TTSResponse)
    (h : wrap_result f r = Except.ok resp) :
    resp.format = f ∧ ∃ a, r = Except.ok a ∧ resp.source = a.source ∧
      resp.audio_data = B64.b64 a.bytes := by
  rcases r with e | a
  · simp [wrap_result] at h
  · simp only [wrap_result] at h
    rw [Except.ok.injEq] at h
    subst h
    exact ⟨rfl, a, rfl, rfl, rfl⟩

/-- C10:  Every successful `/synthesize` response carries the request's
`output_format` string verbatim in its `format` field, while the audio
bytes are a WAV container regardless of that string. -/
theorem C10_theorem (s : ServerState) (env : Env) (req : TTSRequest) (resp : TTSResponse)
    (h : (synthesize s env req).1 = Except.ok resp) :
    resp.format = req.output_format ∧
    ∃ pcm rate, resp.audio_data = B64.b64 (WavBytes.wav pcm rate) := by
  have hw : ∃ r, wrap_result req.output_format r = Except.ok resp := by
    unfold synthesize at h
    by_cases hc : (req.text = "" ∨ pyStrip req.text = "")
    · simp [hc] at h
    · by_cases hl : s.modelLoaded = true
      · simp only [hc, hl, if_true, if_false] at h
        exact ⟨_, h⟩
      · simp only [hc, hl, if_true, if_false] at h
        exact ⟨_, h⟩
  obtain ⟨r, hr⟩ := hw
  obtain ⟨hf, a, _, _, hb⟩ := wrap_result_ok _ _ _ hr
  rcases hab : a.bytes with ⟨pcm, rate⟩
  exact ⟨hf, pcm, rate, by rw [hb, hab]⟩

/-- C10 witness:  A successful request with `output_format = "mp3"`
still produces WAV-container audio labeled "mp3". -/
theorem C10_witness :
    (synthesize (initialState true) ⟨⟨Except.error (), false, false⟩, ⟨[0], 1000, false⟩⟩
        { text := "Hi", output_format := "mp3" }).1 =
      Except.ok { audio_data := B64.b64 (WavBytes.wav [0] 1000), duration_ms := 1,
                  sample_rate := 1000, format := "mp3", source := Backend.system } ∧
    ({ audio_data := B64.b64 (WavBytes.wav [0] 1000), duration_ms := 1, sample_rate := 1000,
        format := "mp3", source := Backend.system } : TTSResponse).format =
      ({ text := "Hi", output_format := "mp3" } : TTSRequest).output_format ∧
    ∃ pcm rate,
      ({ audio_data := B64.b64 (WavBytes.wav [0] 1000), duration_ms := 1, sample_rate := 1000,
          format := "mp3", source := Backend.system } : TTSResponse).audio_data =
        B64.b64 (WavBytes.wav pcm rate) := by
  have h : (synthesize (initialState true)
      ⟨⟨Except.error (), false, false⟩, ⟨[0], 1000, false⟩⟩
      { text := "Hi", output_format := "mp3" }).1 =
    Except.ok { audio_data := B64.b64 (WavBytes.wav [0] 1000), duration_ms := 1,
                sample_rate := 1000, format := "mp3", source := Backend.system } := rfl
  exact ⟨h, (C10_theorem _ _ _ _ h).1, (C10_theorem _ _ _ _ h).2⟩

/-! ## C6 -/

/-- C6 (code bug):  An execution of `synthesize_with_qwen` on which the
temp file `/tmp/qwen_tts_output.wav` is written and the read-back raises:
the exception is swallowed by the fallback handler, the call still returns
the system backend's audio successfully, and the temp file is left behind
(`qwenTmpLeft = true`) — contradicting the required cleanup on every exit
path.  (`synthesize_with_system_tts`, by contrast, removes its temp file in
its `except` branch.) -/
theorem C6_theorem :
    ((synthesize_with_qwen ⟨some ⟨true, true⟩, true, true, false⟩
        ⟨Except.ok (⟨DType.float32, [0]⟩, 24000), false, true⟩
        ⟨[0], 22050, false⟩ "Hello" "default" "speak normally" 1).2.qwenTmpLeft = true) ∧
    ∃ a, (synthesize_with_qwen ⟨some ⟨true, true⟩, true, true, false⟩
        ⟨Except.ok (⟨DType.float32, [0]⟩, 24000), false, true⟩
        ⟨[0], 22050, false⟩ "Hello" "default" "speak normally" 1).1 = Except.ok a ∧
      a.source = Backend.system := by
  exact ⟨rfl, ⟨_, rfl, rfl⟩⟩

/-! ## Fallback lemmas for the qwen path -/

theorem qwen_after_gen_fallback (hasPy : Bool) (qenv : QwenEnv) (senv : SysEnv)
    (text voice : String) (speed : ℚ) (instr : Option String) (w : Waveform) (rate : ℕ)
    (hf : qenv.writeFails = true ∨ qenv.readFails = true) :
    (qwen_after_gen hasPy qenv senv text voice speed instr w rate).1 =
      (synthesize_with_system_tts hasPy senv text voice speed).1 := by
  unfold qwen_after_gen
  rcases hf with hf | hf
  · simp [hf]
  · by_cases hw : qenv.writeFails = true
    · simp [hw]
    · simp [hw, hf]

theorem qwen_fallback_eq (s : ServerState) (qenv : QwenEnv) (senv : SysEnv)
    (text voice prosody : String) (speed : ℚ) (m : Model) (hm : s.model = some m)
    (hf : qenv.gen = Except.error () ∨ qenv.writeFails = true ∨ qenv.readFails = true) :
    (synthesize_with_qwen s qenv senv text voice prosody speed).1 =
      (synthesize_with_system_tts s.hasPyttsx3 senv text voice speed).1 := by
  have hgen : ∀ (instr : Option String) (w : Waveform) (rate : ℕ),
      qenv.gen = Except.ok (w, rate) →
      (qwen_after_gen s.hasPyttsx3 qenv senv text voice speed instr w rate).1 =
        (synthesize_with_system_tts s.hasPyttsx3 senv text voice speed).1 := by
    intro instr w rate hg
    apply qwen_after_gen_fallback
    rcases hf with hf | hf | hf
    · rw [hg] at hf
      exact Except.noConfusion hf
    · exact Or.inl hf
    · exact Or.inr hf
  rw [synthesize_with_qwen, hm]
  cases hvd : m.hasVoiceDesign
  · cases hge : m.hasGenerate
    · simp only [hvd, hge, Bool.false_eq_true, if_false]
    · simp only [hvd, hge, Bool.false_eq_true, if_false, if_true]
      rcases hg : qenv.gen with u | ⟨w, rate⟩
      · rfl
      · exact hgen none w rate hg
  · simp only [hvd, if_true]
    rcases hg : qenv.gen with u | ⟨w, rate⟩
    · rfl
    · exact hgen (some (voice_instruct prosody)) w rate hg

/-! ## C2 -/

/-- C2:  When the model-loaded flag is set, a model handle is present,
and the neural path raises anywhere (generation, temp-file write, or
read-back), the endpoint's answer is exactly what the system backend alone
would have produced: a success is sourced from the system backend, and the
only user-visible error is the system backend's own, wrapped as HTTP 500.
The neural failure itself never reaches the caller. -/
theorem C2_theorem (s : ServerState) (env : Env) (req : TTSRequest) (m : Model)
    (hm : s.model = some m) (hl : s.modelLoaded = true)
    (hf : env.qwen.gen = Except.error () ∨ env.qwen.writeFails = true ∨
      env.qwen.readFails = true)
    (ht : ¬(req.text = "" ∨ pyStrip req.text = "")) :
    (synthesize s env req).1 = system_response s env req ∧
    (∀ resp, (synthesize s env req).1 = Except.ok resp → resp.source = Backend.system) := by
  have hq := qwen_fallback_eq s env.qwen env.sys req.text req.voice req.prosody_instruction
    req.speed m hm hf
  have he : (synthesize s env req).1 = system_response s env req := by
    rw [synthesize, if_neg ht]
    simp only [hl, if_true]
    rw [hq, system_response]
  refine ⟨he, ?_⟩
  intro resp hresp
  rw [he, system_response] at hresp
  obtain ⟨_, a, ha, hs, _⟩ := wrap_result_ok _ _ _ hresp
  rw [hs]
  exact sys_ok_source _ _ _ _ _ _ ha

/-- C2 witness:  C2 evaluated at a loaded voice-design model whose
generation call raises, with a working system backend. -/
theorem C2_witness :
    ¬((({ text := "Hello" } : TTSRequest).text = "") ∨
        pyStrip ({ text := "Hello" } : TTSRequest).text = "") ∧
    (synthesize ⟨some ⟨true, true⟩, true, true, false⟩
        ⟨⟨Except.error (), false, false⟩, ⟨[0], 22050, false⟩⟩ { text := "Hello" }).1 =
      system_response ⟨some ⟨true, true⟩, true, true, false⟩
        ⟨⟨Except.error (), false, false⟩, ⟨[0], 22050, false⟩⟩ { text := "Hello" } ∧
    (∀ resp, (synthesize ⟨some ⟨true, true⟩, true, true, false⟩
        ⟨⟨Except.error (), false, false⟩, ⟨[0], 22050, false⟩⟩ { text := "Hello" }).1 =
      Except.ok resp → resp.source = Backend.system) := by
  have h := C2_theorem ⟨some ⟨true, true⟩, true, true, false⟩
    ⟨⟨Except.error (), false, false⟩, ⟨[0], 22050, false⟩⟩ { text := "Hello" }
    ⟨true, true⟩ rfl rfl (Or.inl rfl) (by decide)
  exact ⟨by decide, h.1, h.2⟩

/-! ## C1 -/

/-- C1:  When model loading fails at startup: the loader returns
normally (its embedding is a total function, so startup is not aborted),
the resulting abstract ModelLoadState is FailedFallback — not Loaded (no
model handle is assigned; note the raw `MODEL_LOADED` flag becomes
`HAS_PYTTSX3`) — and every subsequent `/synthesize` request with usable
text is answered exactly as the system backend alone would answer it,
with the neural generation method never invoked. -/
theorem C1_theorem (hasPy : Bool) (env : Env) (req : TTSRequest)
    (ht : ¬(req.text = "" ∨ pyStrip req.text = "")) :
    (load_qwen_model (initialState hasPy) LoadOutcome.err).loadState =
      ModelLoadState.failedFallback ∧
    (load_qwen_model (initialState hasPy) LoadOutcome.err).loadState ≠
      ModelLoadState.loaded ∧
    (load_qwen_model (initialState hasPy) LoadOutcome.err).modelLoaded = hasPy ∧
    (synthesize (load_qwen_model (initialState hasPy) LoadOutcome.err) env
        req).2.neuralGenAttempted = false ∧
    (synthesize (load_qwen_model (initialState hasPy) LoadOutcome.err) env req).1 =
      system_response (load_qwen_model (initialState hasPy) LoadOutcome.err) env req := by
  refine ⟨rfl, ?_, rfl, ?_, ?_⟩
  · intro h
    exact ModelLoadState.noConfusion
      ((rfl : (load_qwen_model (initialState hasPy) LoadOutcome.err).loadState =
        ModelLoadState.failedFallback).symm.trans h)
  · rw [synthesize, if_neg ht]
    cases hasPy
    · exact sys_neuralGen_false false env.sys req.text req.voice req.speed
    · exact sys_neuralGen_false true env.sys req.text req.voice req.speed
  · rw [synthesize, if_neg ht]
    cases hasPy
    · rfl
    · rfl

/-- C1 witness:  C1 evaluated after a failed load with pyttsx3
available, on a request with text "Hello". -/
theorem C1_witness :
    ¬((({ text := "Hello" } : TTSRequest).text = "") ∨
        pyStrip ({ text := "Hello" } : TTSRequest).text = "") ∧
    ((load_qwen_model (initialState true) LoadOutcome.err).loadState =
      ModelLoadState.failedFallback ∧
    (load_qwen_model (initialState true) LoadOutcome.err).loadState ≠
      ModelLoadState.loaded ∧
    (load_qwen_model (initialState true) LoadOutcome.err).modelLoaded = true ∧
    (synthesize (load_qwen_model (initialState true) LoadOutcome.err)
        ⟨⟨Except.error (), false, false⟩, ⟨[0], 22050, false⟩⟩
        { text := "Hello" }).2.neuralGenAttempted = false ∧
    (synthesize (load_qwen_model (initialState true) LoadOutcome.err)
        ⟨⟨Except.error (), false, false⟩, ⟨[0], 22050, false⟩⟩ { text := "Hello" }).1 =
      system_response (load_qwen_model (initialState true) LoadOutcome.err)
        ⟨⟨Except.error (), false, false⟩, ⟨[0], 22050, false⟩⟩ { text := "Hello" }) :=
  ⟨by decide, C1_theorem true ⟨⟨Except.error (), false, false⟩, ⟨[0], 22050, false⟩⟩
    { text := "Hello" } (by decide)⟩

/-! ## C9 -/

theorem handle_preserves_state (s : ServerState) (r : Req) : (handle s r).2 = s := by
  cases r <;> rfl

theorem processRequests_state (s : ServerState) (rs : List Req) :
    (processRequests s rs).2 = s := by
  induction rs generalizing s with
  | nil => rfl
  | cons r rs ih =>
    simp only [processRequests]
    rw [handle_preserves_state]
    exact ih s

theorem health_model_loaded (s : ServerState) (rs : List Req) (h : HealthResponse)
    (hmem : Resp.health h ∈ (processRequests s rs).1) : h.model_loaded = s.modelLoaded := by
  induction rs generalizing s with
  | nil => exact absurd hmem (List.not_mem_nil _)
  | cons r rs ih =>
    simp only [processRequests] at hmem
    rcases List.mem_cons.mp hmem with heq | htail
    · cases r with
      | health p =>
        have hh : h = health_check s p := by injection heq
        rw [hh]
        rfl
      | synth env rq => exact Resp.noConfusion heq
      | root => exact Resp.noConfusion heq
    · have := ih (handle s r).2 htail
      rw [handle_preserves_state] at this
      exact this

/-- C9:  Within one process lifetime, any two `/health` responses in
any request trace report the same `model_loaded` value, and serving
requests never changes the process state (the model-loaded flag is written
only by the startup loader). -/
theorem C9_theorem (s : ServerState) (rs : List Req) (h1 h2 : HealthResponse)
    (m1 : Resp.health h1 ∈ (processRequests s rs).1)
    (m2 : Resp.health h2 ∈ (processRequests s rs).1) :
    h1.model_loaded = h2.model_loaded ∧
    (processRequests s rs).2.modelLoaded = s.modelLoaded := by
  constructor
  · rw [health_model_loaded s rs h1 m1, health_model_loaded s rs h2 m2]
  · rw [processRequests_state]

/-- C9 witness:  A trace of two `/health` calls (with a root call in
between) after a successful model load: both health responses carry
`model_loaded = true`. -/
theorem C9_witness :
    (Resp.health ⟨"healthy", true, some MODEL_NAME, 7860⟩ ∈
      (processRequests (load_qwen_model (initialState true) (LoadOutcome.ok ⟨true, true⟩))
        [Req.health 7860, Req.root, Req.health 7860]).1) ∧
    (⟨"healthy", true, some MODEL_NAME, 7860⟩ : HealthResponse).model_loaded =
      (⟨"healthy", true, some MODEL_NAME, 7860⟩ : HealthResponse).model_loaded ∧
    (processRequests (load_qwen_model (initialState true) (LoadOutcome.ok ⟨true, true⟩))
        [Req.health 7860, Req.root, Req.health 7860]).2.modelLoaded =
      (load_qwen_model (initialState true) (LoadOutcome.ok ⟨true, true⟩)).modelLoaded := by
  have hm : Resp.health ⟨"healthy", true, some MODEL_NAME, 7860⟩ ∈
    (processRequests (load_qwen_model (initialState true) (LoadOutcome.ok ⟨true, true⟩))
      [Req.health 7860, Req.root, Req.health 7860]).1 := by decide
  have h := C9_theorem _ _ _ _ hm hm
  exact ⟨hm, h.1, h.2⟩
